import Mathlib

/-!
# Verification of the Universal CSV Analyzer core (`src/app.py`)

Shallow embedding of the single-file Streamlit application:

* the **Type Classifier** (`num_cols` / `cat_cols`, app.py lines 52-53),
* the **Aggregator** (`top_data`, app.py line 83:
  `df.groupby(label_col)[target_col].mean().sort_values(ascending=False).head(10)`),
* the **Distribution View** guard (`fig_dist`, app.py lines 75-78),
* the **Role Mapper** (`get_column_mapping`, app.py lines 19-41),
* the **Summary Requester** button handler (app.py lines 89-98), and
* the **Auto-Detect** button handler (app.py lines 56-62).

Machine floats are modelled as exact rationals (the claims only involve means
of small integers, where IEEE arithmetic is exact); a missing value (pandas
`NaN`) is `none`.  The pandas semantics embedded here:

* `df.groupby(k)` uses the defaults `sort=True` (group keys sorted ascending)
  and `dropna=True` (rows whose key is missing belong to no group);
* `SeriesGroupBy.mean()` skips missing values; a group whose values are all
  missing has an undefined (`NaN`) mean; aggregating string data raises
  `TypeError`;
* `Series.sort_values(ascending=False)` places undefined values last
  (`na_position='last'`) and, being implemented as reverse / argsort /
  reverse, keeps equal elements in their incoming order, so on the
  key-ascending groupby output ties end up in ascending key order.
-/

namespace App

/-- A primitive cell value of the table: a number or a piece of text. -/
inductive Value where
  | num (q : ℚ)
  | str (s : String)
deriving DecidableEq, Repr

/-- A table cell: a value, or `none` for a missing entry (pandas `NaN`). -/
abbrev Cell := Option Value

/-- A named column with its pandas dtype flag (`select_dtypes` keys off the
dtype) and its cells, in row order. -/
structure Column where
  name : String
  isNumeric : Bool
  cells : List Cell
deriving DecidableEq, Repr

/-- A table as parsed by `pd.read_csv`: an ordered sequence of columns. -/
structure Table where
  cols : List Column
deriving DecidableEq, Repr

/-- The column names of a table, in order (`df.columns.tolist()`). -/
def colNames (t : Table) : List String :=
  t.cols.map Column.name

/-- `df[n]`: the first column named `n`, if any. -/
def Table.col? (t : Table) (n : String) : Option Column :=
  t.cols.find? (fun c => c.name = n)

/-- Type Classifier, numeric half:
`num_cols = df.select_dtypes(include=['number']).columns.tolist()`
(app.py line 52). -/
def num_cols (t : Table) : List String :=
  (t.cols.filter (fun c => c.isNumeric)).map Column.name

/-- Type Classifier, non-numeric half:
`cat_cols = df.select_dtypes(exclude=['number']).columns.tolist()`
(app.py line 53). -/
def cat_cols (t : Table) : List String :=
  (t.cols.filter (fun c => !c.isNumeric)).map Column.name

/-- Code-point lexicographic comparison of character lists: the order Python
string comparison (and hence the pandas key sort) uses. -/
def charsLe : List Char → List Char → Bool
  | [], _ => true
  | _ :: _, [] => false
  | a :: as, b :: bs =>
    if a.toNat = b.toNat then charsLe as bs
    else decide (a.toNat < b.toNat)

/-- Rational addition, written out on numerator and denominator so that it
evaluates by kernel reduction; `qadd_eq_add` below identifies it with `+`. -/
def qadd (a b : ℚ) : ℚ := mkRat (a.num * b.den + b.num * a.den) (a.den * b.den)

/-- Sum of a list of rationals via `qadd`; equals `List.sum` (`qsum_eq_sum`). -/
def qsum (l : List ℚ) : ℚ := l.foldr qadd 0

/-- Division of a rational by a natural number, written out on numerator and
denominator; `qdivNat_eq_div` below identifies it with `/`. -/
def qdivNat (a : ℚ) (n : ℕ) : ℚ := mkRat a.num (a.den * n)

/-- The ascending order pandas `safe_sort` uses on group keys: numbers by
numeric value, strings lexicographically by code point, and in a mixed
object column all numbers before all strings. -/
def valLe (a b : Value) : Bool :=
  match a, b with
  | .num x, .num y => decide (x ≤ y)
  | .num _, .str _ => true
  | .str _, .num _ => false
  | .str x, .str y => charsLe x.data y.data

/-- `valLe` as a relation, for the sorting lemmas. -/
def vle (a b : Value) : Prop := valLe a b = true

instance : DecidableRel vle := fun a b => instDecidableEqBool (valLe a b) true

/-- Does this cell hold a string (data the pandas `mean` aggregation cannot
convert, making it raise `TypeError`)? -/
def isStrCell (c : Cell) : Bool :=
  match c with
  | some (.str _) => true
  | _ => false

/-- The numeric content of a cell, if any. -/
def cellNum (c : Cell) : Option ℚ :=
  match c with
  | some (.num q) => some q
  | _ => none

/-- The distinct group keys of `df.groupby(label_col)`: the distinct
non-missing label values (`dropna=True`), sorted ascending (`sort=True`).
`ps` is the list of (label cell, metric cell) rows. -/
def groupKeys (ps : List (Cell × Cell)) : List Value :=
  List.insertionSort vle ((ps.filterMap Prod.fst).dedup)

/-- The mean the aggregation computes for the group keyed by `v`: the
arithmetic mean of the non-missing metric values in rows labelled `v`, or
`none` (pandas `NaN`) when the group has no such value. -/
def groupMean (ps : List (Cell × Cell)) (v : Value) : Option ℚ :=
  let nums := ps.filterMap (fun p => if p.1 = some v then cellNum p.2 else none)
  if nums.isEmpty then none else some (qdivNat (qsum nums) nums.length)

/-- The order `sort_values(ascending=False)` leaves the groupby output in:
means descending, undefined (`NaN`) means last (`na_position='last'`), and —
the sort being stable on the key-ascending groupby output — ties in ascending
key order. -/
def pairLe (a b : Value × Option ℚ) : Bool :=
  match a.2, b.2 with
  | some x, some y => if x = y then valLe a.1 b.1 else decide (y < x)
  | some _, none => true
  | none, some _ => false
  | none, none => valLe a.1 b.1

/-- `pairLe` as a relation, for the sorting lemmas. -/
def ple (a b : Value × Option ℚ) : Prop := pairLe a b = true

instance : DecidableRel ple := fun a b => instDecidableEqBool (pairLe a b) true

/-- The Aggregator on the zipped (label, metric) rows:
`groupby(label).mean().sort_values(ascending=False).head(limit)`.
Raises (`Except.error`) exactly when the aggregation meets string data in a
grouped row, as pandas `mean` does on object-dtype content. -/
def aggregateRows (limit : ℕ) (ps : List (Cell × Cell)) :
    Except String (List (Value × Option ℚ)) :=
  if ps.any (fun p => p.1.isSome && isStrCell p.2) then
    .error "TypeError: agg function failed"
  else
    .ok (((List.insertionSort ple
      ((groupKeys ps).map (fun v => (v, groupMean ps v))))).take limit)

/-- `top_data` (app.py line 83):
`df.groupby(label_col)[target_col].mean().sort_values(ascending=False).head(10).reset_index()`
with the truncation bound `limit` made explicit (the source fixes it to 10).
A missing column name raises `KeyError`, as `df.groupby` does. -/
def top_data (limit : ℕ) (t : Table) (label target : String) :
    Except String (List (Value × Option ℚ)) :=
  match t.col? label, t.col? target with
  | some lc, some tc => aggregateRows limit (lc.cells.zip tc.cells)
  | _, _ => .error "KeyError"

/-- A rendered histogram: `px.histogram(df, x=target_col, title=...)` plots
the raw column values (app.py lines 76-77). -/
structure Histogram where
  title : String
  xvalues : List Cell
deriving DecidableEq, Repr

/-- The Distribution View (app.py lines 75-78): the histogram is built and
shown only under the guard `if not df[target_col].empty:`; for an empty
column nothing is produced at all. -/
def fig_dist (c : Column) : Option Histogram :=
  if c.cells.isEmpty then none
  else some ⟨"Distribution of " ++ c.name, c.cells⟩

/-- A JSON value, modelling what `res.json()` returns. -/
inductive Json where
  | str (s : String)
  | num (q : ℚ)
  | arr (xs : List Json)
  | obj (fields : List (String × Json))
  | null

/-- Python `j[k]` on a parsed JSON object: the value under key `k`; anything
else (missing key, non-object) raises, modelled as `none`. -/
def Json.get (j : Json) (k : String) : Option Json :=
  match j with
  | .obj fs => (fs.find? (fun f => f.1 = k)).map Prod.snd
  | _ => none

/-- Python `j[i]` on a parsed JSON array; anything else raises (`none`). -/
def Json.idx (j : Json) (i : ℕ) : Option Json :=
  match j with
  | .arr xs => xs.get? i
  | _ => none

/-- The extraction `res.json()['choices'][0]['message']['content']` shared by
both remote calls; `none` models the chain raising `KeyError` / `IndexError`
/ `TypeError` on a payload without the expected shape. -/
def extractContent (j : Json) : Option Json :=
  (j.get "choices").bind fun cs =>
    (cs.idx 0).bind fun m =>
      (m.get "message").bind fun msg => msg.get "content"

/-- The observable outcome of `requests.post`: either the call raises a
transport exception, or it returns a response with a status code and — when
the body parses as JSON — a parsed body (`none` models `res.json()` raising). -/
inductive HttpOutcome where
  | transportError
  | response (status : ℕ) (body : Option Json)

/-- The Role Mapper `get_column_mapping` (app.py lines 19-41): the
`requests.post` / `res.json()['choices'][0]['message']['content']` chain is
wrapped in a bare `try/except` returning `None`; the status code is never
consulted. -/
def get_column_mapping (o : HttpOutcome) : Option Json :=
  match o with
  | .transportError => none
  | .response _ body => body.bind extractContent

/-- The Generate Summary button handler (app.py lines 89-98): `requests.post`
is NOT wrapped in `try/except`, so a transport exception propagates
(`Except.error`); then `if res.status_code == 200:` shows the extracted
content (extraction failure on a 200 body also propagates), and any other
status silently shows nothing (`Except.ok none`). -/
def generate_summary (o : HttpOutcome) : Except String (Option Json) :=
  match o with
  | .transportError => .error "requests.exceptions.ConnectionError"
  | .response status body =>
    if status = 200 then
      match body.bind extractContent with
      | some c => .ok (some c)
      | none => .error "KeyError"
    else .ok none

/-- What the Auto-Detect Columns button does with the session credential. -/
inductive DetectAction where
  | warning (msg : String)
  | callMapping (authHeader : String)
deriving DecidableEq, Repr

/-- The Auto-Detect Columns button handler (app.py lines 56-62): with an
empty token (`if not api_token:`) it shows a warning and performs no remote
call; otherwise it invokes `get_column_mapping`, whose request carries
`Authorization: Bearer <token>`. -/
def auto_detect_click (token : String) : DetectAction :=
  if token = "" then .warning "Please enter your token in the sidebar."
  else .callMapping ("Bearer " ++ token)

/-- What the Generate Summary button does with the session credential. -/
inductive SummaryAction where
  | request (authHeader : String)
deriving DecidableEq, Repr

/-- The Generate Summary button handler's request step (app.py lines 89-96):
it posts unconditionally, with the header `Authorization: Bearer {api_token}`
interpolated even from an empty token. -/
def summary_click (token : String) : SummaryAction :=
  .request ("Bearer " ++ token)

/-- The number of distinct non-missing label values of a label column — the
number of groups `df.groupby(label_col)` forms under `dropna=True`. -/
def distinctLabels (cells : List Cell) : ℕ :=
  ((cells.filterMap id).dedup).length

/-! ## Bridge lemmas: the unfolded rational helpers are ordinary arithmetic -/

theorem qadd_eq_add (a b : ℚ) : qadd a b = a + b := by
  have ha : (a.den : ℚ) ≠ 0 := by exact_mod_cast a.den_nz
  have hb : (b.den : ℚ) ≠ 0 := by exact_mod_cast b.den_nz
  rw [qadd, Rat.mkRat_eq_div]
  conv_rhs => rw [← Rat.num_div_den a, ← Rat.num_div_den b]
  push_cast
  field_simp

theorem qsum_eq_sum (l : List ℚ) : qsum l = l.sum := by
  induction l with
  | nil => rfl
  | cons a l ih => simp [qsum, List.foldr_cons, qadd_eq_add] at ih ⊢; rw [ih]

theorem qdivNat_eq_div (a : ℚ) (n : ℕ) : qdivNat a n = a / n := by
  have ha : (a.den : ℚ) ≠ 0 := by exact_mod_cast a.den_nz
  rw [qdivNat, Rat.mkRat_eq_div]
  conv_rhs => rw [← Rat.num_div_den a]
  push_cast
  rw [div_mul_eq_div_div]

/-- `groupMean` is the arithmetic mean, in standard operations, of the
non-missing metric values of the group — `none` when there are none. -/
theorem groupMean_eq_mean (ps : List (Cell × Cell)) (v : Value) :
    groupMean ps v =
      (fun nums => if nums.isEmpty then none else some (nums.sum / nums.length))
        (ps.filterMap (fun p => if p.1 = some v then cellNum p.2 else none)) := by
  simp only [groupMean, qdivNat_eq_div, qsum_eq_sum]

/-! ## The sorting relations are total and transitive -/

theorem charsLe_total : ∀ xs ys, charsLe xs ys = true ∨ charsLe ys xs = true
  | [], _ => Or.inl rfl
  | _ :: _, [] => Or.inr rfl
  | x :: xs, y :: ys => by
    rcases Nat.lt_trichotomy x.toNat y.toNat with h | h | h
    · exact Or.inl (by simp [charsLe, Nat.ne_of_lt h, h])
    · rcases charsLe_total xs ys with h1 | h1
      · exact Or.inl (by simp [charsLe, h, h1])
      · exact Or.inr (by simp [charsLe, h.symm, h1])
    · exact Or.inr (by simp [charsLe, Nat.ne_of_lt h, h])

theorem charsLe_trans : ∀ xs ys zs, charsLe xs ys = true → charsLe ys zs = true →
    charsLe xs zs = true
  | [], _, _ => by intro h1 h2; rfl
  | x :: xs, [], zs => by intro h1 h2; exact absurd h1 (by simp [charsLe])
  | _ :: _, _ :: _, [] => by intro h1 h2; exact absurd h2 (by simp [charsLe])
  | x :: xs, y :: ys, z :: zs => by
    intro h1 h2
    by_cases hxy : x.toNat = y.toNat <;> by_cases hyz : y.toNat = z.toNat
    · simp only [charsLe, hxy, if_true, hyz] at h1 h2
      simp only [charsLe, hxy.trans hyz, if_true]
      exact charsLe_trans xs ys zs h1 h2
    · simp only [charsLe, hyz, if_false, decide_eq_true_eq] at h2
      have hxz : x.toNat < z.toNat := by omega
      simp [charsLe, Nat.ne_of_lt hxz, hxz]
    · simp only [charsLe, hxy, if_false, decide_eq_true_eq] at h1
      have hxz : x.toNat < z.toNat := by omega
      simp [charsLe, Nat.ne_of_lt hxz, hxz]
    · simp only [charsLe, hxy, if_false, decide_eq_true_eq] at h1
      simp only [charsLe, hyz, if_false, decide_eq_true_eq] at h2
      have hxz : x.toNat < z.toNat := h1.trans h2
      simp [charsLe, Nat.ne_of_lt hxz, hxz]

theorem vle_total (a b : Value) : vle a b ∨ vle b a := by
  cases a with
  | num x => cases b with
    | num y => simp only [vle, valLe, decide_eq_true_eq]; exact le_total x y
    | str y => exact Or.inl rfl
  | str x => cases b with
    | num y => exact Or.inr rfl
    | str y => exact charsLe_total x.data y.data

theorem vle_trans : ∀ {a b c : Value}, vle a b → vle b c → vle a c := by
  intro a b c
  cases a with
  | num x => cases b with
    | num y => cases c with
      | num z =>
        simp only [vle, valLe, decide_eq_true_eq]
        exact le_trans
      | str z => intro h1 h2; rfl
    | str y => cases c with
      | num z => intro h1 h2; exact absurd h2 (by simp [vle, valLe])
      | str z => intro h1 h2; rfl
  | str x => cases b with
    | num y => intro h1 h2; exact absurd h1 (by simp [vle, valLe])
    | str y => cases c with
      | num z => intro h1 h2; exact absurd h2 (by simp [vle, valLe])
      | str z => exact charsLe_trans x.data y.data z.data

theorem ple_total (a b : Value × Option ℚ) : ple a b ∨ ple b a := by
  rcases a with ⟨ka, ma⟩
  rcases b with ⟨kb, mb⟩
  cases ma with
  | none => cases mb with
    | none => exact vle_total ka kb
    | some y => exact Or.inr rfl
  | some x => cases mb with
    | none => exact Or.inl rfl
    | some y =>
      by_cases hxy : x = y
      · subst hxy
        simp only [ple, pairLe, if_pos]
        exact vle_total ka kb
      · rcases lt_trichotomy x y with h | h | h
        · exact Or.inr (by simp [ple, pairLe, Ne.symm hxy, h])
        · exact absurd h hxy
        · exact Or.inl (by simp [ple, pairLe, hxy, h])

theorem ple_trans : ∀ {a b c : Value × Option ℚ}, ple a b → ple b c → ple a c := by
  intro a b c
  rcases a with ⟨ka, ma⟩
  rcases b with ⟨kb, mb⟩
  rcases c with ⟨kc, mc⟩
  cases ma with
  | none => cases mb with
    | some y => intro h1 _; exact absurd h1 (by simp [ple, pairLe])
    | none => cases mc with
      | some z => intro _ h2; exact absurd h2 (by simp [ple, pairLe])
      | none => exact vle_trans
  | some x => cases mc with
    | none => intro _ _; rfl
    | some z => cases mb with
      | none => intro _ h2; exact absurd h2 (by simp [ple, pairLe])
      | some y =>
        intro h1 h2
        by_cases hxy : x = y <;> by_cases hyz : y = z
        · subst hxy
          subst hyz
          simp only [ple, pairLe, if_pos] at h1 h2 ⊢
          exact vle_trans h1 h2
        · simp only [ple, pairLe, if_neg hyz, decide_eq_true_eq] at h2
          have hzx : z < x := by rw [hxy]; exact h2
          simp [ple, pairLe, ne_of_gt hzx, hzx]
        · simp only [ple, pairLe, if_neg hxy, decide_eq_true_eq] at h1
          have hzx : z < x := by rw [← hyz]; exact h1
          simp [ple, pairLe, ne_of_gt hzx, hzx]
        · simp only [ple, pairLe, if_neg hxy, decide_eq_true_eq] at h1
          simp only [ple, pairLe, if_neg hyz, decide_eq_true_eq] at h2
          have hzx : z < x := h2.trans h1
          simp [ple, pairLe, ne_of_gt hzx, hzx]

instance : IsTotal (Value × Option ℚ) ple := ⟨ple_total⟩

instance : IsTrans (Value × Option ℚ) ple := ⟨fun _ _ _ => ple_trans⟩

/-- Reading the sort order back in plain terms: if `a` comes before `b`, then
an undefined mean is never followed by a defined one, defined means descend,
and equal means keep ascending key order. -/
theorem ple_spec (a b : Value × Option ℚ) (h : ple a b) :
    (a.2 = none → b.2 = none) ∧
      (∀ x y, a.2 = some x → b.2 = some y → y ≤ x) ∧
      (a.2 = b.2 → vle a.1 b.1) := by
  rcases a with ⟨ka, ma⟩
  rcases b with ⟨kb, mb⟩
  cases ma with
  | none => cases mb with
    | none => exact ⟨fun _ => rfl, fun x y hx => by simp at hx, fun _ => h⟩
    | some y => exact absurd h (by simp [ple, pairLe])
  | some x => cases mb with
    | none =>
      refine ⟨fun hx => by simp at hx, fun a b hx hy => by simp at hy, fun he => by simp at he⟩
    | some y =>
      refine ⟨fun hx => by simp at hx, ?_, ?_⟩
      · intro a b hx hy
        obtain rfl : x = a := by simpa using hx
        obtain rfl : y = b := by simpa using hy
        by_cases hxy : x = y
        · exact le_of_eq hxy.symm
        · simp only [ple, pairLe, if_neg hxy, decide_eq_true_eq] at h
          exact le_of_lt h
      · intro he
        obtain rfl : x = y := by simpa using he
        simpa only [ple, pairLe, if_pos] using h

instance : IsTotal Value vle := ⟨vle_total⟩

instance : IsTrans Value vle := ⟨fun _ _ _ => vle_trans⟩

/-! ## Helper lemmas about the aggregation pipeline -/

/-- Unfolding a successful `top_data` run: the result is the mean-sorted,
truncated list of groups of the two selected columns. -/
theorem top_data_ok {limit : ℕ} {t : Table} {label target : String} {lc tc : Column}
    {r : List (Value × Option ℚ)}
    (hl : t.col? label = some lc) (ht : t.col? target = some tc)
    (h : top_data limit t label target = Except.ok r) :
    r = (List.insertionSort ple ((groupKeys (lc.cells.zip tc.cells)).map
      (fun v => (v, groupMean (lc.cells.zip tc.cells) v)))).take limit := by
  unfold top_data at h
  rw [hl, ht] at h
  have h2 : aggregateRows limit (lc.cells.zip tc.cells) = Except.ok r := h
  by_cases hstr : ((lc.cells.zip tc.cells).any fun p => p.1.isSome && isStrCell p.2) = true
  · unfold aggregateRows at h2
    rw [if_pos hstr] at h2
    exact Except.noConfusion h2
  · unfold aggregateRows at h2
    rw [if_neg hstr] at h2
    exact (Except.ok.inj h2).symm

theorem zip_filterMap_fst (l1 l2 : List Cell) (h : l1.length ≤ l2.length) :
    (l1.zip l2).filterMap Prod.fst = l1.filterMap id := by
  conv_rhs => rw [← List.map_fst_zip l1 l2 h]
  rw [List.filterMap_map]
  rfl

theorem any_str_filter (ps : List (Cell × Cell)) :
    ((ps.filter fun p => p.1.isSome).any fun p => p.1.isSome && isStrCell p.2)
      = (ps.any fun p => p.1.isSome && isStrCell p.2) := by
  induction ps with
  | nil => rfl
  | cons p ps ih =>
    rcases p with ⟨l, m⟩
    cases l
    · simp [List.filter_cons, ih]
    · simp [List.filter_cons, ih]

theorem filterMap_filter_isSome {β : Type} (g : Cell × Cell → Option β)
    (hg : ∀ p : Cell × Cell, p.1 = none → g p = none) (ps : List (Cell × Cell)) :
    (ps.filter fun p => p.1.isSome).filterMap g = ps.filterMap g := by
  induction ps with
  | nil => rfl
  | cons p ps ih =>
    rcases p with ⟨l, m⟩
    cases l
    · simp [List.filter_cons, List.filterMap_cons, hg (⟨none, m⟩ : Cell × Cell) rfl, ih]
    · simp [List.filter_cons, List.filterMap_cons, ih]

/-- `groupby(dropna=True)`: the aggregation is unchanged by first discarding
every row whose label is missing. -/
theorem aggregateRows_filter (limit : ℕ) (ps : List (Cell × Cell)) :
    aggregateRows limit ps = aggregateRows limit (ps.filter fun p => p.1.isSome) := by
  have hk : groupKeys (ps.filter fun p => p.1.isSome) = groupKeys ps := by
    unfold groupKeys
    rw [filterMap_filter_isSome Prod.fst (fun p hp => hp) ps]
  have hm : ∀ v, groupMean (ps.filter fun p => p.1.isSome) v = groupMean ps v := by
    intro v
    unfold groupMean
    rw [filterMap_filter_isSome _ (fun p hp => by simp [hp]) ps]
  unfold aggregateRows
  rw [any_str_filter]
  by_cases hstr : (ps.any fun p => p.1.isSome && isStrCell p.2) = true
  · rw [if_pos hstr, if_pos hstr]
  · rw [if_neg hstr, if_neg hstr]
    rw [hk]
    have hfun : (fun v => (v, groupMean (ps.filter fun p => p.1.isSome) v))
        = fun v => (v, groupMean ps v) := funext fun v => by rw [hm v]
    rw [hfun]

/-! ## The claims -/

/-- Claim C1, counterexample: on a one-row table whose metric column `met` is
non-numeric (it holds the string `"x"`), `top_data` raises a `TypeError`
instead of returning an empty aggregated view, refuting "if metricColumn is
not in the numeric subset ... topFactors returns an empty AggregatedView and
never raises an error". -/
theorem C1_counterexample :
    top_data 10 ⟨[⟨"lab", false, [some (Value.str "A")]⟩,
        ⟨"met", false, [some (Value.str "x")]⟩]⟩ "lab" "met"
      = Except.error "TypeError: agg function failed" ∧
    top_data 10 ⟨[⟨"lab", false, [some (Value.str "A")]⟩,
        ⟨"met", false, [some (Value.str "x")]⟩]⟩ "lab" "met"
      ≠ Except.ok [] :=
  ⟨rfl, fun h => Except.noConfusion h⟩

/-- Claim C1 (amended): if both selected columns exist and the table has zero
rows, `top_data` returns an empty aggregated view without error; but if the
metric column holds a string value in some row whose label is present, the
aggregation raises an error rather than returning an empty view. -/
theorem C1_amended :
    (∀ (limit : ℕ) (t : Table) (label target : String) (lc tc : Column),
        t.col? label = some lc → t.col? target = some tc →
        lc.cells = [] → tc.cells = [] →
        top_data limit t label target = Except.ok []) ∧
    (∀ (limit : ℕ) (t : Table) (label target : String) (lc tc : Column),
        t.col? label = some lc → t.col? target = some tc →
        ((lc.cells.zip tc.cells).any fun p => p.1.isSome && isStrCell p.2) = true →
        ∃ e, top_data limit t label target = Except.error e) := by
  constructor
  · intro limit t label target lc tc hl ht hlc htc
    unfold top_data
    rw [hl, ht]
    show aggregateRows limit (lc.cells.zip tc.cells) = Except.ok []
    rw [hlc, htc]
    show Except.ok (List.take limit []) = Except.ok []
    rw [List.take_nil]
  · intro limit t label target lc tc hl ht hstr
    refine ⟨"TypeError: agg function failed", ?_⟩
    unfold top_data
    rw [hl, ht]
    show aggregateRows limit (lc.cells.zip tc.cells) = _
    unfold aggregateRows
    rw [if_pos hstr]

/-- Claim C1, witness: the amended theorem at a concrete zero-row table and
at the concrete string-metric table. -/
theorem C1_amended_witness :
    top_data 10 ⟨[⟨"lab", false, []⟩, ⟨"met", true, []⟩]⟩ "lab" "met" = Except.ok [] ∧
    ∃ e, top_data 10 ⟨[⟨"lab", false, [some (Value.str "A")]⟩,
        ⟨"met", false, [some (Value.str "x")]⟩]⟩ "lab" "met" = Except.error e :=
  ⟨C1_amended.1 10 ⟨[⟨"lab", false, []⟩, ⟨"met", true, []⟩]⟩ "lab" "met"
      ⟨"lab", false, []⟩ ⟨"met", true, []⟩ rfl rfl rfl rfl,
    C1_amended.2 10 ⟨[⟨"lab", false, [some (Value.str "A")]⟩,
        ⟨"met", false, [some (Value.str "x")]⟩]⟩ "lab" "met"
      ⟨"lab", false, [some (Value.str "A")]⟩ ⟨"met", false, [some (Value.str "x")]⟩
      rfl rfl rfl⟩

/-- Claim C2, counterexample: labels are encountered in the order
`B, A, C` and all three groups have mean 1, yet `top_data` returns the
groups as `A, B, C` (the groupby sorts keys ascending), not in
first-encounter order as the claim demands for ties. -/
theorem C2_counterexample :
    top_data 10 ⟨[⟨"lab", false, [some (Value.str "B"), some (Value.str "A"),
        some (Value.str "C")]⟩,
      ⟨"met", true, [some (Value.num 1), some (Value.num 1), some (Value.num 1)]⟩]⟩
        "lab" "met"
      = Except.ok [(Value.str "A", some 1), (Value.str "B", some 1), (Value.str "C", some 1)] ∧
    top_data 10 ⟨[⟨"lab", false, [some (Value.str "B"), some (Value.str "A"),
        some (Value.str "C")]⟩,
      ⟨"met", true, [some (Value.num 1), some (Value.num 1), some (Value.num 1)]⟩]⟩
        "lab" "met"
      ≠ Except.ok [(Value.str "B", some 1), (Value.str "A", some 1), (Value.str "C", some 1)] :=
  ⟨rfl, fun h => absurd (Except.ok.inj h) (by decide)⟩

/-- Claim C2 (amended): every successful `top_data` result is sorted by
per-group mean in descending order with undefined (all-missing) means last,
and ties between equal means are ordered by ascending group key — the order
`groupby(sort=True)` leaves them in — not by first encounter in the source
table. -/
theorem C2_sorted (limit : ℕ) (t : Table) (label target : String) (lc tc : Column)
    (r : List (Value × Option ℚ))
    (hl : t.col? label = some lc) (ht : t.col? target = some tc)
    (h : top_data limit t label target = Except.ok r) :
    r.Pairwise (fun a b =>
      (a.2 = none → b.2 = none) ∧
        (∀ x y, a.2 = some x → b.2 = some y → y ≤ x) ∧
        (a.2 = b.2 → vle a.1 b.1)) := by
  obtain rfl := top_data_ok hl ht h
  have hs := List.sorted_insertionSort ple
    ((groupKeys (lc.cells.zip tc.cells)).map
      (fun v => (v, groupMean (lc.cells.zip tc.cells) v)))
  exact (hs.sublist (List.take_sublist _ _)).imp fun hab => ple_spec _ _ hab

/-- Claim C2, witness: the sortedness theorem applied to the concrete table
of claim C7. -/
theorem C2_sorted_witness :
    ([(Value.str "B", (some 30 : Option ℚ)), (Value.str "A", some 15)]).Pairwise
      (fun a b =>
        (a.2 = none → b.2 = none) ∧
          (∀ x y, a.2 = some x → b.2 = some y → y ≤ x) ∧
          (a.2 = b.2 → vle a.1 b.1)) :=
  C2_sorted 10
    ⟨[⟨"lab", false, [some (Value.str "A"), some (Value.str "A"), some (Value.str "B")]⟩,
      ⟨"met", true, [some (Value.num 10), some (Value.num 20), some (Value.num 30)]⟩]⟩
    "lab" "met"
    ⟨"lab", false, [some (Value.str "A"), some (Value.str "A"), some (Value.str "B")]⟩
    ⟨"met", true, [some (Value.num 10), some (Value.num 20), some (Value.num 30)]⟩
    [(Value.str "B", some 30), (Value.str "A", some 15)] rfl rfl rfl

/-- Claim C5: the Type Classifier partitions the column names — the two
lists together are exactly the column names (as a permutation), each
preserves the original column order (is a sublist), and under the loader's
guarantee of distinct column names they are disjoint. -/
theorem C5_partition (t : Table) (h : (colNames t).Nodup) :
    (num_cols t ++ cat_cols t).Perm (colNames t) ∧
      (num_cols t).Sublist (colNames t) ∧
      (cat_cols t).Sublist (colNames t) ∧
      List.Disjoint (num_cols t) (cat_cols t) := by
  have hp := (List.filter_append_perm (fun c : Column => c.isNumeric) t.cols).map Column.name
  rw [List.map_append] at hp
  refine ⟨hp, (List.filter_sublist _).map _, (List.filter_sublist _).map _, ?_⟩
  have hnd : (num_cols t ++ cat_cols t).Nodup := hp.symm.nodup h
  exact (List.nodup_append.mp hnd).2.2

/-- Claim C5, witness: the partition theorem at a two-column table. -/
theorem C5_partition_witness :
    (num_cols ⟨[⟨"a", true, []⟩, ⟨"b", false, []⟩]⟩ ++
        cat_cols ⟨[⟨"a", true, []⟩, ⟨"b", false, []⟩]⟩).Perm
        (colNames ⟨[⟨"a", true, []⟩, ⟨"b", false, []⟩]⟩) ∧
      (num_cols ⟨[⟨"a", true, []⟩, ⟨"b", false, []⟩]⟩).Sublist
        (colNames ⟨[⟨"a", true, []⟩, ⟨"b", false, []⟩]⟩) ∧
      (cat_cols ⟨[⟨"a", true, []⟩, ⟨"b", false, []⟩]⟩).Sublist
        (colNames ⟨[⟨"a", true, []⟩, ⟨"b", false, []⟩]⟩) ∧
      List.Disjoint (num_cols ⟨[⟨"a", true, []⟩, ⟨"b", false, []⟩]⟩)
        (cat_cols ⟨[⟨"a", true, []⟩, ⟨"b", false, []⟩]⟩) :=
  C5_partition ⟨[⟨"a", true, []⟩, ⟨"b", false, []⟩]⟩ (by decide)

/-- Claim C7: on the table with label column `["A","A","B"]` and metric
column `[10, 20, 30]`, `top_data` yields exactly `[("B", 30), ("A", 15)]`. -/
theorem C7_roundtrip :
    top_data 10
        ⟨[⟨"lab", false, [some (Value.str "A"), some (Value.str "A"), some (Value.str "B")]⟩,
          ⟨"met", true, [some (Value.num 10), some (Value.num 20), some (Value.num 30)]⟩]⟩
        "lab" "met"
      = Except.ok [(Value.str "B", some 30), (Value.str "A", some 15)] := rfl

/-- Claim C6: a successful `top_data` result has length
`min limit (distinct non-missing label values)`, and is at most 10 under the
source's fixed `head(10)` truncation. -/
theorem C6_length (limit : ℕ) (t : Table) (label target : String) (lc tc : Column)
    (r : List (Value × Option ℚ))
    (hl : t.col? label = some lc) (ht : t.col? target = some tc)
    (hlen : lc.cells.length = tc.cells.length)
    (h : top_data limit t label target = Except.ok r) :
    r.length = min limit (distinctLabels lc.cells) ∧ (limit = 10 → r.length ≤ 10) := by
  obtain rfl := top_data_ok hl ht h
  constructor
  · rw [List.length_take, List.length_insertionSort, List.length_map, groupKeys,
      List.length_insertionSort,
      zip_filterMap_fst lc.cells tc.cells (le_of_eq hlen)]
    rfl
  · intro h10
    rw [List.length_take]
    subst h10
    exact Nat.min_le_left _ _

/-- Claim C6, witness: the length theorem at the concrete table of claim C7,
where the two distinct labels give a result of length `min 10 2 = 2`. -/
theorem C6_length_witness :
    ([(Value.str "B", (some 30 : Option ℚ)), (Value.str "A", some 15)]).length
        = min 10 (distinctLabels [some (Value.str "A"), some (Value.str "A"),
          some (Value.str "B")]) ∧
      (10 = 10 →
        ([(Value.str "B", (some 30 : Option ℚ)), (Value.str "A", some 15)]).length ≤ 10) :=
  C6_length 10
    ⟨[⟨"lab", false, [some (Value.str "A"), some (Value.str "A"), some (Value.str "B")]⟩,
      ⟨"met", true, [some (Value.num 10), some (Value.num 20), some (Value.num 30)]⟩]⟩
    "lab" "met"
    ⟨"lab", false, [some (Value.str "A"), some (Value.str "A"), some (Value.str "B")]⟩
    ⟨"met", true, [some (Value.num 10), some (Value.num 20), some (Value.num 30)]⟩
    [(Value.str "B", some 30), (Value.str "A", some 15)] rfl rfl rfl rfl

/-- Claim C9: rows whose label is missing are silently excluded from the
aggregation — `top_data` computes exactly what it would compute on the table
with those rows discarded, so they form no group and contribute to no mean. -/
theorem C9_missing_labels_dropped (limit : ℕ) (t : Table) (label target : String)
    (lc tc : Column) (hl : t.col? label = some lc) (ht : t.col? target = some tc) :
    top_data limit t label target =
      aggregateRows limit ((lc.cells.zip tc.cells).filter fun p => p.1.isSome) := by
  unfold top_data
  rw [hl, ht]
  show aggregateRows limit (lc.cells.zip tc.cells) = _
  exact aggregateRows_filter limit _

/-- Claim C9, witness: on a table whose second row has a missing label, the
aggregation equals the aggregation of the first row alone. -/
theorem C9_missing_labels_dropped_witness :
    top_data 10 ⟨[⟨"lab", false, [some (Value.str "A"), none]⟩,
        ⟨"met", true, [some (Value.num 1), some (Value.num 2)]⟩]⟩ "lab" "met" =
      aggregateRows 10
        ((([some (Value.str "A"), none] : List Cell).zip
          ([some (Value.num 1), some (Value.num 2)] : List Cell)).filter
            fun p => p.1.isSome) :=
  C9_missing_labels_dropped 10
    ⟨[⟨"lab", false, [some (Value.str "A"), none]⟩,
      ⟨"met", true, [some (Value.num 1), some (Value.num 2)]⟩]⟩
    "lab" "met"
    ⟨"lab", false, [some (Value.str "A"), none]⟩
    ⟨"met", true, [some (Value.num 1), some (Value.num 2)]⟩ rfl rfl

/-- Claim C3, counterexample: the Role Mapper never consults the status
code, so a non-2xx response whose body happens to carry the expected
`choices[0].message.content` shape yields that content, not "no mapping" —
refuting the claim's "on ... non-2xx response ... returns no mapping". -/
theorem C3_counterexample :
    get_column_mapping (HttpOutcome.response 500 (some (Json.obj [("choices",
        Json.arr [Json.obj [("message", Json.obj [("content", Json.str "MAP")])]])])))
      = some (Json.str "MAP") ∧
    get_column_mapping (HttpOutcome.response 500 (some (Json.obj [("choices",
        Json.arr [Json.obj [("message", Json.obj [("content", Json.str "MAP")])]])])))
      ≠ none :=
  ⟨rfl, fun h => Option.noConfusion h⟩

/-- Claim C3 (amended): `get_column_mapping` never propagates an exception
and returns no mapping on a transport failure or on any payload without the
expected shape; but the status code is never consulted — the result depends
only on the body. -/
theorem C3_amended :
    get_column_mapping HttpOutcome.transportError = none ∧
      (∀ st : ℕ, get_column_mapping (HttpOutcome.response st none) = none) ∧
      (∀ (st : ℕ) (j : Json), extractContent j = none →
        get_column_mapping (HttpOutcome.response st (some j)) = none) ∧
      (∀ (st st2 : ℕ) (b : Option Json),
        get_column_mapping (HttpOutcome.response st b) =
          get_column_mapping (HttpOutcome.response st2 b)) :=
  ⟨rfl, fun _ => rfl, fun _ j h => by simp [get_column_mapping, h], fun _ _ _ => rfl⟩

/-- Claim C3, witness: a 404 response whose body is JSON `null` (no
`choices` key) yields no mapping. -/
theorem C3_amended_witness :
    get_column_mapping (HttpOutcome.response 404 (some Json.null)) = none :=
  C3_amended.2.2.1 404 Json.null rfl

/-- Claim C4, counterexample: the Generate Summary handler wraps nothing in
`try/except`, so a transport failure of `requests.post` propagates an
exception instead of being swallowed — refuting "any failure of the remote
call ... is swallowed". -/
theorem C4_counterexample :
    generate_summary HttpOutcome.transportError =
        Except.error "requests.exceptions.ConnectionError" ∧
      ¬ ∃ s, generate_summary HttpOutcome.transportError = Except.ok s :=
  ⟨rfl, fun ⟨_, hs⟩ => Except.noConfusion hs⟩

/-- Claim C4 (amended): a response with any status other than 200 is
swallowed — no summary is shown and no error is raised — but a transport
error propagates an exception out of the handler. -/
theorem C4_amended :
    (∀ (st : ℕ) (body : Option Json), st ≠ 200 →
        generate_summary (HttpOutcome.response st body) = Except.ok none) ∧
      generate_summary HttpOutcome.transportError =
        Except.error "requests.exceptions.ConnectionError" := by
  refine ⟨fun st body h => ?_, rfl⟩
  show (if st = 200 then
      match body.bind extractContent with
      | some c => Except.ok (some c)
      | none => Except.error "KeyError"
    else Except.ok none) = Except.ok none
  rw [if_neg h]

/-- Claim C4, witness: a 500 response with no parseable body is swallowed
with no output. -/
theorem C4_amended_witness :
    generate_summary (HttpOutcome.response 500 none) = Except.ok none :=
  C4_amended.1 500 none (by decide)

/-- Claim C8, counterexample: over an empty column the Distribution View
produces no histogram at all — the rendering is skipped by the
`if not df[target_col].empty:` guard — refuting "produces an empty histogram
with zero buckets". -/
theorem C8_counterexample :
    ¬ ∃ h : Histogram, fig_dist ⟨"m", true, []⟩ = some h :=
  fun ⟨_, hh⟩ => Option.noConfusion hh

/-- Claim C8 (amended): over an empty column the Distribution View renders
nothing at all — no histogram and no error; a histogram is produced exactly
for nonempty columns. -/
theorem C8_amended :
    (∀ c : Column, c.cells = [] → fig_dist c = none) ∧
      (∀ c : Column, c.cells ≠ [] →
        fig_dist c = some ⟨"Distribution of " ++ c.name, c.cells⟩) := by
  constructor
  · intro c hc
    unfold fig_dist
    rw [hc]
    rfl
  · intro c hc
    unfold fig_dist
    rw [if_neg (by simp [hc])]

/-- Claim C8, witness: the amended theorem at an empty and a one-cell
column. -/
theorem C8_amended_witness :
    fig_dist ⟨"m", true, []⟩ = none ∧
      fig_dist ⟨"m", true, [none]⟩ = some ⟨"Distribution of m", [none]⟩ :=
  ⟨C8_amended.1 ⟨"m", true, []⟩ rfl, C8_amended.2 ⟨"m", true, [none]⟩ (by simp)⟩

/-- Claim C10: the Generate Summary button posts unconditionally — with an
empty credential it still sends `Authorization: Bearer ` — whereas the
Auto-Detect button refuses to call the Role Mapper without a credential and
shows a warning instead. -/
theorem C10_auth_asymmetry :
    (∀ tok : String, summary_click tok = SummaryAction.request ("Bearer " ++ tok)) ∧
      summary_click "" = SummaryAction.request "Bearer " ∧
      auto_detect_click "" = DetectAction.warning "Please enter your token in the sidebar." ∧
      (∀ tok : String, tok ≠ "" →
        auto_detect_click tok = DetectAction.callMapping ("Bearer " ++ tok)) := by
  refine ⟨fun tok => rfl, rfl, rfl, fun tok h => ?_⟩
  unfold auto_detect_click
  rw [if_neg h]

/-- Claim C10, witness: a nonempty token makes the Auto-Detect button call
the Role Mapper with a bearer header. -/
theorem C10_auth_asymmetry_witness :
    auto_detect_click "t" = DetectAction.callMapping "Bearer t" :=
  C10_auth_asymmetry.2.2.2 "t" (by decide)

end App
